import Mathlib

/-!
Verification of the quota/usage-tracking, LLM-orchestration, voice-agent and
report-retry logic of the hirecoach backend, as a shallow embedding.

Sources embedded:
- `backend/app/services/quota_service.py` (`QuotaService`)
- `backend/app/services/plan_service.py` (the lookups used by `QuotaService`)
- `backend/app/services/llm_service.py` (`generate_interview_plan`,
  `_generate_dummy_questions`, `evaluate_answer` post-processing)
- `backend/livekit-voice-agent/interview_agent.py` (`on_agent_speech`)
- `backend/app/routes/interview.py` (`get_or_generate_report` retry loop)

Python `datetime` values are modelled as explicit calendar records, database
rows as Lean structures, SQLAlchemy queries as list lookups in row order, and
raised exceptions as explicit error values.
-/

set_option maxRecDepth 100000

/-- Model of a Python `datetime.datetime` (proleptic Gregorian calendar). -/
structure DateTime where
  year : Nat
  month : Nat
  day : Nat
  hour : Nat
  minute : Nat
  second : Nat
  microsecond : Nat
deriving DecidableEq, Repr

/-- Gregorian leap-year rule used by Python's `datetime`. -/
def isLeap (y : Nat) : Bool :=
  decide (y % 4 = 0 ∧ (y % 100 ≠ 0 ∨ y % 400 = 0))

/-- Number of days in a month of a given year. -/
def daysInMonth (y m : Nat) : Nat :=
  if m = 2 then (if isLeap y then 29 else 28)
  else if m = 4 ∨ m = 6 ∨ m = 9 ∨ m = 11 then 30
  else 31

/-- Advance a datetime by one calendar day (time of day unchanged),
mirroring `datetime + timedelta(days=1)`. -/
def nextDay (d : DateTime) : DateTime :=
  if d.day < daysInMonth d.year d.month then { d with day := d.day + 1 }
  else if d.month < 12 then { d with month := d.month + 1, day := 1 }
  else { d with year := d.year + 1, month := 1, day := 1 }

/-- `datetime + timedelta(days=n)`. -/
def addDays : DateTime → Nat → DateTime
  | d, 0 => d
  | d, n + 1 => addDays (nextDay d) n

/-- `.replace(day=1)` on a datetime. -/
def replaceDay1 (d : DateTime) : DateTime :=
  { d with day := 1 }

/-- `datetime.utcnow().replace(day=1, hour=0, minute=0, second=0, microsecond=0)`:
the period start used by `QuotaService` when the user has no subscription. -/
def startOfCurrentMonth (now : DateTime) : DateTime :=
  { now with day := 1, hour := 0, minute := 0, second := 0, microsecond := 0 }

/-- The default billing window computed by `QuotaService.check_and_increment_usage`
(also `get_usage_stats` and `can_use_feature`) when the user has no active
subscription:
`period_start = utcnow().replace(day=1, hour=0, minute=0, second=0, microsecond=0)`
and `period_end = (period_start + timedelta(days=32)).replace(day=1)`. -/
def defaultPeriod (now : DateTime) : DateTime × DateTime :=
  let period_start := startOfCurrentMonth now
  (period_start, replaceDay1 (addDays period_start 32))

/-- Row of `pricing_plans` (fields used by the quota logic). -/
structure PricingPlan where
  id : Nat
  code : String
  is_active : Bool
deriving DecidableEq, Repr

/-- Row of `plan_features`: `monthly_quota` is `NULL = unlimited, 0 = disabled,
>0 = limit`; `hard_cap = TRUE` blocks after the limit, `FALSE` allows with a
warning. -/
structure PlanFeature where
  plan_id : Nat
  feature_code : String
  monthly_quota : Option Int
  hard_cap : Bool
deriving DecidableEq, Repr

/-- `SubscriptionStatus` enum from `models.py`. -/
inductive SubscriptionStatus where
  | active
  | canceled
  | expired
  | trial
deriving DecidableEq, Repr

/-- Row of `subscriptions` (fields used by the quota logic). -/
structure Subscription where
  user_id : String
  plan_id : Nat
  status : SubscriptionStatus
  current_period_start : DateTime
  current_period_end : DateTime
deriving DecidableEq, Repr

/-- Row of `user_feature_usage`. -/
structure UserFeatureUsage where
  user_id : String
  plan_id : Nat
  feature_code : String
  period_start : DateTime
  period_end : DateTime
  used_count : Int
deriving DecidableEq, Repr

/-- The database state visible to `QuotaService`; queries are `first()`-style
lookups in row order. -/
structure DB where
  plans : List PricingPlan
  subscriptions : List Subscription
  plan_features : List PlanFeature
  usages : List UserFeatureUsage
deriving DecidableEq, Repr

/-- Exceptions that the modelled code can raise: `QuotaExceededError` from
`quota_service.py` and the `ValueError` from `PlanService.get_user_plan`. -/
inductive PyError where
  | quotaExceeded (feature_code : String) (limit : Int) (used : Int)
  | valueError (msg : String)
deriving DecidableEq, Repr

/-- `PlanService.get_user_subscription`: first subscription row of the user
with `status == ACTIVE`. -/
def get_user_subscription (db : DB) (user_id : String) : Option Subscription :=
  db.subscriptions.find? fun s =>
    decide (s.user_id = user_id ∧ s.status = SubscriptionStatus.active)

/-- `PlanService.get_user_plan`: the active subscription's plan (via the
`subscription.plan` relationship on `plan_id`) if present, else the active
`free` plan; raises `ValueError` when the free plan is missing. -/
def get_user_plan (db : DB) (user_id : String) : Except PyError PricingPlan :=
  let subscription := get_user_subscription db user_id
  let sub_plan : Option PricingPlan :=
    subscription.bind fun s => db.plans.find? fun p => decide (p.id = s.plan_id)
  match sub_plan with
  | some p => .ok p
  | none =>
    match db.plans.find? (fun p => decide (p.code = "free" ∧ p.is_active = true)) with
    | some free_plan => .ok free_plan
    | none => .error (.valueError "Free plan not found in database. Please seed initial data.")

/-- `PlanService.get_plan_feature`: first `plan_features` row with the given
plan id and feature code. -/
def get_plan_feature (db : DB) (plan_id : Nat) (feature_code : String) :
    Option PlanFeature :=
  db.plan_features.find? fun f =>
    decide (f.plan_id = plan_id ∧ f.feature_code = feature_code)

/-- The billing period used by `QuotaService`: the active subscription's
`current_period_start`/`current_period_end` when present, else the default
calendar-month window from `now`. -/
def currentPeriod (db : DB) (now : DateTime) (user_id : String) :
    DateTime × DateTime :=
  match get_user_subscription db user_id with
  | some s => (s.current_period_start, s.current_period_end)
  | none => defaultPeriod now

/-- The filter of the `UserFeatureUsage` query in `QuotaService`:
matching user id, plan id, feature code and both period bounds. -/
def UsageKey (user_id : String) (plan_id : Nat) (feature_code : String)
    (period_start period_end : DateTime) (u : UserFeatureUsage) : Bool :=
  decide (u.user_id = user_id ∧ u.plan_id = plan_id ∧
    u.feature_code = feature_code ∧ u.period_start = period_start ∧
    u.period_end = period_end)

/-- The usage-row filter as instantiated by `check_and_increment_usage` and
`can_use_feature`: key on the user, the user's plan, the feature and the
current billing period. -/
def usageKeyOf (db : DB) (now : DateTime) (user_id : String) (plan_id : Nat)
    (feature_code : String) : UserFeatureUsage → Bool :=
  UsageKey user_id plan_id feature_code (currentPeriod db now user_id).1
    (currentPeriod db now user_id).2

/-- `usage.used_count += 1` on the row returned by `.first()`: bump the first
row matching the key, leave all others unchanged. -/
def incrementFirst (key : UserFeatureUsage → Bool) :
    List UserFeatureUsage → List UserFeatureUsage
  | [] => []
  | u :: rest =>
    if key u then { u with used_count := u.used_count + 1 } :: rest
    else u :: incrementFirst key rest

/-- `QuotaService.check_and_increment_usage`. Returns the Python result
(`True`, or an exception) together with the database state as left by the
call: unchanged on the early-return and raise paths (no commit), with the
get-or-created usage row flushed and, on success, incremented. `now` stands
for `datetime.utcnow()`. -/
def check_and_increment_usage (db : DB) (now : DateTime)
    (user_id feature_code : String) : Except PyError Bool × DB :=
  match get_user_plan db user_id with
  | .error e => (.error e, db)
  | .ok plan =>
    match get_plan_feature db plan.id feature_code with
    | none => (.ok true, db)
    | some feature =>
      match feature.monthly_quota with
      | none => (.ok true, db)
      | some quota =>
        if quota = 0 then
          (.error (.quotaExceeded feature_code 0 0), db)
        else
          let pp := currentPeriod db now user_id
          let key := UsageKey user_id plan.id feature_code pp.1 pp.2
          match db.usages.find? key with
          | some usage =>
            if usage.used_count ≥ quota ∧ feature.hard_cap = true then
              (.error (.quotaExceeded feature_code quota usage.used_count), db)
            else
              (.ok true, { db with usages := incrementFirst key db.usages })
          | none =>
            let fresh : UserFeatureUsage :=
              { user_id := user_id, plan_id := plan.id,
                feature_code := feature_code, period_start := pp.1,
                period_end := pp.2, used_count := 0 }
            let db1 : DB := { db with usages := db.usages ++ [fresh] }
            if (0 : Int) ≥ quota ∧ feature.hard_cap = true then
              (.error (.quotaExceeded feature_code quota 0), db1)
            else
              (.ok true, { db1 with usages := incrementFirst key db1.usages })

/-- `QuotaService.can_use_feature`: read-only check, with the surrounding
`try/except` mapping any raised exception to
`(False, "Error checking feature access")`. -/
def can_use_feature (db : DB) (now : DateTime) (user_id feature_code : String) :
    Bool × Option String :=
  match get_user_plan db user_id with
  | .error _ => (false, some "Error checking feature access")
  | .ok plan =>
    match get_plan_feature db plan.id feature_code with
    | none => (true, none)
    | some feature =>
      match feature.monthly_quota with
      | none => (true, none)
      | some quota =>
        if quota = 0 then
          (false, some ("Feature \x27" ++ feature_code ++ "\x27 is not available on your plan"))
        else
          let pp := currentPeriod db now user_id
          let key := UsageKey user_id plan.id feature_code pp.1 pp.2
          let used : Int :=
            match db.usages.find? key with
            | some u => u.used_count
            | none => 0
          if used ≥ quota then
            if feature.hard_cap = true then
              (false, some ("You\x27ve used " ++ toString used ++ "/" ++
                toString quota ++ " for this month. Upgrade to continue."))
            else
              (true, none)
          else
            (true, none)

/-- A usage row for the given user, plan and feature (any billing period). -/
def MatchesUFC (user_id : String) (plan_id : Nat) (feature_code : String)
    (u : UserFeatureUsage) : Prop :=
  u.user_id = user_id ∧ u.plan_id = plan_id ∧ u.feature_code = feature_code

/-- A sequence of `check_and_increment_usage` calls for one user and feature,
each at its own wall-clock instant, threading the database state. -/
def runCalls (user_id feature_code : String) : DB → List DateTime → DB
  | db, [] => db
  | db, now :: rest =>
    runCalls user_id feature_code
      (check_and_increment_usage db now user_id feature_code).2 rest

instance {ε α : Type} [DecidableEq ε] [DecidableEq α] :
    DecidableEq (Except ε α) := fun x y =>
  match x, y with
  | .ok a, .ok b =>
    if h : a = b then isTrue (by rw [h])
    else isFalse (by intro hh; cases hh; exact h rfl)
  | .error a, .error b =>
    if h : a = b then isTrue (by rw [h])
    else isFalse (by intro hh; cases hh; exact h rfl)
  | .ok _, .error _ => isFalse (by intro hh; cases hh)
  | .error _, .ok _ => isFalse (by intro hh; cases hh)

/-- Whether the first list is an initial segment of the second. -/
def startsWithChars : List Char → List Char → Bool
  | [], _ => true
  | _ :: _, [] => false
  | c :: cs, d :: ds => decide (c = d) && startsWithChars cs ds

/-! ### Embedding of the LLM orchestration (`llm_service.py`) -/

/-- Parsed JSON values, the possible results of `json.loads`. -/
inductive Json where
  | null
  | bool (b : Bool)
  | num (n : Int)
  | str (s : String)
  | arr (xs : List Json)
  | obj (fields : List (String × Json))

/-- `LLMService._call_llm`: `None` when no client is configured (no API key);
otherwise the provider's response, which is itself `None` on an API error. -/
def call_llm (client : Bool) (api_response : Option String) : Option String :=
  if client then api_response else none

/-- A question produced by `LLMService._generate_dummy_questions`. -/
structure DummyQuestion where
  idx : Nat
  type : String
  competency : String
  question_text : String
deriving DecidableEq, Repr

/-- The `question_types` list in `_generate_dummy_questions`. -/
def question_types : List String :=
  ["technical", "behavioral", "situational", "general"]

/-- The `question_templates` dict in `_generate_dummy_questions`; the Python
f-strings interpolate `job_title` and `seniority`. -/
def question_templates (job_title seniority : String) (q_type : String) :
    List String :=
  if q_type = "technical" then
    ["Describe your experience with key technologies used in " ++ job_title ++ " roles.",
     "What technical challenges have you faced in " ++ job_title ++ " work, and how did you overcome them?",
     "Explain a technical project you\x27re proud of in the " ++ job_title ++ " domain.",
     "How do you stay updated with the latest trends and technologies in " ++ job_title ++ "?"]
  else if q_type = "behavioral" then
    ["Tell me about a time when you had to work under pressure. How did you handle it?",
     "Describe a situation where you disagreed with a colleague. How did you resolve it?",
     "Give an example of how you\x27ve demonstrated leadership in your role.",
     "Tell me about a time you failed. What did you learn from it?"]
  else if q_type = "situational" then
    ["If you joined our team as a " ++ job_title ++ ", what would be your priorities in the first 90 days?",
     "How would you handle a situation where you\x27re given conflicting priorities?",
     "Imagine you\x27re working on a critical " ++ job_title ++ " project with a tight deadline, and you discover a major issue. What do you do?",
     "How would you approach mentoring a junior team member?"]
  else if q_type = "general" then
    ["Why are you interested in this " ++ job_title ++ " position?",
     "What are your career goals for the next 3-5 years?",
     "What motivates you in your work?",
     "What do you think are the most important skills for a " ++ seniority ++ " " ++ job_title ++ "?"]
  else []

/-- The `competencies` dict in `_generate_dummy_questions`. -/
def competencies (q_type : String) : List String :=
  if q_type = "technical" then
    ["Technical Expertise", "Problem Solving", "Innovation"]
  else if q_type = "behavioral" then
    ["Teamwork", "Communication", "Adaptability", "Leadership"]
  else if q_type = "situational" then
    ["Decision Making", "Strategic Thinking", "Conflict Resolution"]
  else if q_type = "general" then
    ["Self-Awareness", "Career Vision", "Motivation"]
  else []

/-- `LLMService._generate_dummy_questions`. `rnd i` is the random draw of
`random.choice` at loop step `i`, modelled as an arbitrary index oracle. -/
def generate_dummy_questions (job_title seniority : String) (rnd : Nat → Nat)
    (num_questions : Nat) : List DummyQuestion :=
  (List.range num_questions).map fun i =>
    let q_type := question_types[i % question_types.length]!
    let templates := question_templates job_title seniority q_type
    let comp_options := competencies q_type
    { idx := i + 1
      type := q_type
      competency := comp_options[rnd i % comp_options.length]!
      question_text := templates[i % templates.length]! }

/-- The dict each dummy question is appended as. -/
def dummyQuestionToJson (q : DummyQuestion) : Json :=
  Json.obj [("idx", Json.num (Int.ofNat q.idx)), ("type", Json.str q.type),
    ("competency", Json.str q.competency),
    ("question_text", Json.str q.question_text)]

/-- `LLMService.generate_interview_plan`: call the LLM; if the response is
truthy and parses as JSON, return it when it is a non-empty list, else fall
back to `_generate_dummy_questions`. `parse` stands for `json.loads`,
returning `none` on `json.JSONDecodeError`. -/
def generate_interview_plan (client : Bool) (api_response : Option String)
    (parse : String → Option Json) (job_title seniority : String)
    (rnd : Nat → Nat) (num_questions : Nat) : Json :=
  let dummy := Json.arr
    ((generate_dummy_questions job_title seniority rnd num_questions).map
      dummyQuestionToJson)
  match call_llm client api_response with
  | none => dummy
  | some r =>
    if r = "" then dummy
    else
      match parse r with
      | some (Json.arr questions) =>
        if 0 < questions.length then Json.arr questions else dummy
      | some _ => dummy
      | none => dummy

/-- Python's `key in value` for a parsed JSON value: key lookup for dicts,
element equality for lists, substring for strings, `TypeError` otherwise. -/
def pyContains (key : String) : Json → Except String Bool
  | Json.obj fields => .ok (fields.any fun p => decide (p.1 = key))
  | Json.arr xs =>
    .ok (xs.any fun j => match j with
      | Json.str s => decide (s = key)
      | _ => false)
  | Json.str s => .ok (s.data.tails.any fun t => startsWithChars key.data t)
  | _ => .error "TypeError: argument is not iterable"

/-- `LLMService.evaluate_answer` after the LLM call: if the response is truthy
and parses, return the parsed value when it contains the keys
`score_overall`, `dimension_scores` and `coach_notes` (short-circuit `and`),
else the dummy evaluation; an uncaught `TypeError` from `in` propagates. -/
def evaluate_answer (client : Bool) (api_response : Option String)
    (parse : String → Option Json) (dummy : Json) : Except String Json :=
  match call_llm client api_response with
  | none => .ok dummy
  | some r =>
    if r = "" then .ok dummy
    else
      match parse r with
      | none => .ok dummy
      | some evaluation =>
        match pyContains "score_overall" evaluation with
        | .error e => .error e
        | .ok b1 =>
          if b1 then
            match pyContains "dimension_scores" evaluation with
            | .error e => .error e
            | .ok b2 =>
              if b2 then
                match pyContains "coach_notes" evaluation with
                | .error e => .error e
                | .ok b3 => if b3 then .ok evaluation else .ok dummy
              else .ok dummy
          else .ok dummy

/-- `LLMService.summarize_session` after the LLM call: if the response is
truthy and parses, return the parsed value when
`all(key in summary for key in ["overall_score", "strengths", "weaknesses",
"action_plan", "suggested_roles"])` holds (`all` over a generator
short-circuits on the first `False`), else the dummy summary; an uncaught
`TypeError` from `in` propagates. -/
def summarize_session (client : Bool) (api_response : Option String)
    (parse : String → Option Json) (dummy : Json) : Except String Json :=
  match call_llm client api_response with
  | none => .ok dummy
  | some r =>
    if r = "" then .ok dummy
    else
      match parse r with
      | none => .ok dummy
      | some summary =>
        match pyContains "overall_score" summary with
        | .error e => .error e
        | .ok b1 =>
          if b1 then
            match pyContains "strengths" summary with
            | .error e => .error e
            | .ok b2 =>
              if b2 then
                match pyContains "weaknesses" summary with
                | .error e => .error e
                | .ok b3 =>
                  if b3 then
                    match pyContains "action_plan" summary with
                    | .error e => .error e
                    | .ok b4 =>
                      if b4 then
                        match pyContains "suggested_roles" summary with
                        | .error e => .error e
                        | .ok b5 =>
                          if b5 then .ok summary else .ok dummy
                      else .ok dummy
                  else .ok dummy
              else .ok dummy
          else .ok dummy

/-! ### Embedding of the voice-agent speech handler (`interview_agent.py`) -/

/-- One transcript entry appended by the event handlers. -/
structure TranscriptEntry where
  role : String
  content : String
deriving DecidableEq, Repr

/-- The eight hardcoded `closing_keywords` in `on_agent_speech`. -/
def closing_keywords : List String :=
  ["thank you for completing",
   "you\x27ll receive a detailed report",
   "have a great day",
   "we\x27ve covered all",
   "that concludes",
   "thank you for participating",
   "that wraps up",
   "interview is complete"]

/-- `str.lower()` (per-character lowercasing). -/
def lowerStr (s : String) : String :=
  String.mk (s.data.map Char.toLower)

/-- Python's `needle in hay` substring test on strings. -/
def strContains (hay needle : String) : Bool :=
  hay.data.tails.any fun t => startsWithChars needle.data t

/-- The mutable state read and written by `on_agent_speech`: the transcript
list, the `interview_complete` flag and `agent.questions_asked`. -/
structure AgentState where
  transcript : List TranscriptEntry
  interview_complete : Bool
  questions_asked : Nat
deriving DecidableEq, Repr

/-- `on_agent_speech` from the voice-agent script: append the utterance,
recount `questions_asked` as assistant entries `// 2`, and when a closing
keyword occurs in the lowercased text or the question threshold is reached,
mark the interview complete and schedule the final transcript save and room
disconnect. The returned `Bool` is whether that save-and-disconnect task was
scheduled on this call. -/
def on_agent_speech (num_questions : Nat) (st : AgentState) (text : String) :
    AgentState × Bool :=
  let transcript := st.transcript ++ [{ role := "assistant", content := text }]
  let questions_asked :=
    (transcript.filter fun t => decide (t.role = "assistant")).length / 2
  let is_closing :=
    closing_keywords.any fun keyword => strContains (lowerStr text) keyword
  let has_reached_question_limit := decide (questions_asked ≥ num_questions)
  if is_closing || has_reached_question_limit then
    ({ transcript := transcript, interview_complete := true,
       questions_asked := questions_asked }, true)
  else
    ({ transcript := transcript, interview_complete := st.interview_complete,
       questions_asked := questions_asked }, false)

/-! ### Embedding of the report retry loop (`interview.py`,
`get_or_generate_report`) -/

/-- `max_retries = 3`. -/
def max_retries : Nat := 3

/-- Python truthiness of `transcript_data and len(transcript_data) >= 1`:
`None` and `[]` are falsy, so this is `length ≥ 1`. -/
def hasTranscript : Option (List TranscriptEntry) → Bool
  | none => false
  | some l => decide (1 ≤ l.length)

/-- The retry loop body of `get_or_generate_report`, from a given attempt
number and delay (in milliseconds; the code starts at 0.5 s and doubles).
`reads k` is the transcript read from the database on attempt `k` (after
`db.refresh`). Returns the final `transcript_data` and the list of performed
sleep delays in order. -/
def retry_from (reads : Nat → Option (List TranscriptEntry))
    (attempt delay : Nat) : Option (List TranscriptEntry) × List Nat :=
  let transcript_data := reads attempt
  if hasTranscript transcript_data then (transcript_data, [])
  else if h : attempt < max_retries then
    let rest := retry_from reads (attempt + 1) (delay * 2)
    (rest.1, delay :: rest.2)
  else (transcript_data, [])
termination_by max_retries + 1 - attempt
decreasing_by omega

/-- The outcomes of `get_or_generate_report` relevant to the retry logic. -/
inductive ReportOutcome where
  | notFound
  | completed
  | inProgress
  | generate (transcript : List TranscriptEntry)
deriving DecidableEq, Repr

/-- `get_or_generate_report` (control flow around the retry loop):
404 when the session does not exist; the stored summary when
`session.summary_json and session.status == "completed"`; otherwise run the
retry loop (3 attempts, 500 ms initial delay) and return `in_progress` with
`summary None` when the final transcript has fewer than 1 entry, else
generate the report from the transcript found. -/
def get_or_generate_report (session_exists has_completed_summary : Bool)
    (reads : Nat → Option (List TranscriptEntry)) :
    ReportOutcome × List Nat :=
  if session_exists = false then (.notFound, [])
  else if has_completed_summary then (.completed, [])
  else
    let r := retry_from reads 1 500
    match r.1 with
    | none => (.inProgress, r.2)
    | some transcript_data =>
      if transcript_data.length < 1 then (.inProgress, r.2)
      else (.generate transcript_data, r.2)

/-! ### Concrete fixtures used by the witness theorems -/

/-- A concrete active free plan. -/
def planFree : PricingPlan := { id := 1, code := "free", is_active := true }

/-- A concrete instant, 2025-10-12 00:00:00 UTC. -/
def t2025oct : DateTime :=
  { year := 2025, month := 10, day := 12, hour := 0, minute := 0, second := 0,
    microsecond := 0 }

/-- First day of October 2025 at midnight. -/
def p2025oct1 : DateTime :=
  { year := 2025, month := 10, day := 1, hour := 0, minute := 0, second := 0,
    microsecond := 0 }

/-- First day of November 2025 at midnight. -/
def p2025nov1 : DateTime :=
  { year := 2025, month := 11, day := 1, hour := 0, minute := 0, second := 0,
    microsecond := 0 }

/-- Fixture: free plan configuring `cv_generate` with unlimited quota. -/
def dbUnlimited : DB :=
  { plans := [planFree], subscriptions := [],
    plan_features :=
      [{ plan_id := 1, feature_code := "cv_generate", monthly_quota := none,
         hard_cap := true }],
    usages := [] }

/-- Fixture: free plan with no feature rows at all. -/
def dbNoFeature : DB :=
  { plans := [planFree], subscriptions := [], plan_features := [],
    usages := [] }

/-- Fixture: `cv_generate` hard-capped at 2 with the October 2025 usage row
already at the limit. -/
def dbAtLimit : DB :=
  { plans := [planFree], subscriptions := [],
    plan_features :=
      [{ plan_id := 1, feature_code := "cv_generate", monthly_quota := some 2,
         hard_cap := true }],
    usages :=
      [{ user_id := "u1", plan_id := 1, feature_code := "cv_generate",
         period_start := p2025oct1, period_end := p2025nov1,
         used_count := 2 }] }

/-- Fixture: `cv_generate` hard-capped at 1 with no usage rows yet. -/
def dbFreshCap : DB :=
  { plans := [planFree], subscriptions := [],
    plan_features :=
      [{ plan_id := 1, feature_code := "cv_generate", monthly_quota := some 1,
         hard_cap := true }],
    usages := [] }

/-- Fixture: `cv_generate` disabled (quota 0). -/
def dbDisabled : DB :=
  { plans := [planFree], subscriptions := [],
    plan_features :=
      [{ plan_id := 1, feature_code := "cv_generate", monthly_quota := some 0,
         hard_cap := true }],
    usages := [] }

/-- Fixture: a parsed LLM response object carrying the keys checked by
`evaluate_answer` and by `summarize_session`. -/
def jsonReportFixture : Json :=
  Json.obj [("score_overall", Json.num 80), ("dimension_scores", Json.obj []),
    ("coach_notes", Json.str "ok"), ("overall_score", Json.num 80),
    ("strengths", Json.arr []), ("weaknesses", Json.arr []),
    ("action_plan", Json.arr []), ("suggested_roles", Json.arr [])]

/-! ### Helper lemmas about the usage-row lookup and increment -/

theorem UsageKey_increment (a : String) (b : Nat) (c : String)
    (d e : DateTime) (w : UserFeatureUsage) :
    UsageKey a b c d e { w with used_count := w.used_count + 1 } =
      UsageKey a b c d e w := rfl

theorem find?_incrementFirst (key : UserFeatureUsage → Bool)
    (hkey : ∀ w, key { w with used_count := w.used_count + 1 } = key w) :
    ∀ {l : List UserFeatureUsage} {u : UserFeatureUsage},
      l.find? key = some u →
      (incrementFirst key l).find? key =
        some { u with used_count := u.used_count + 1 } := by
  intro l
  induction l with
  | nil => intro u h; simp [List.find?] at h
  | cons v rest ih =>
    intro u h
    by_cases hv : key v = true
    · rw [List.find?_cons_of_pos _ hv] at h
      injection h with h
      subst h
      simp only [incrementFirst, if_pos hv]
      exact List.find?_cons_of_pos _ (by rw [hkey]; exact hv)
    · rw [List.find?_cons_of_neg _ hv] at h
      simp only [incrementFirst, if_neg hv]
      rw [List.find?_cons_of_neg _ hv]
      exact ih h

theorem mem_incrementFirst (key : UserFeatureUsage → Bool) :
    ∀ {l : List UserFeatureUsage} {u v : UserFeatureUsage},
      l.find? key = some u → v ∈ incrementFirst key l →
      v ∈ l ∨ v = { u with used_count := u.used_count + 1 } := by
  intro l
  induction l with
  | nil => intro u v h; simp [List.find?] at h
  | cons w rest ih =>
    intro u v h hv
    by_cases hw : key w = true
    · rw [List.find?_cons_of_pos _ hw] at h
      injection h with h
      subst h
      simp only [incrementFirst, if_pos hw] at hv
      rcases List.mem_cons.mp hv with h1 | h1
      · right; exact h1
      · left; exact List.mem_cons_of_mem _ h1
    · rw [List.find?_cons_of_neg _ hw] at h
      simp only [incrementFirst, if_neg hw] at hv
      rcases List.mem_cons.mp hv with h1 | h1
      · left; rw [h1]; exact List.mem_cons_self _ _
      · rcases ih h h1 with h2 | h2
        · left; exact List.mem_cons_of_mem _ h2
        · right; exact h2

theorem find?_append_singleton {α : Type} {p : α → Bool} :
    ∀ {l : List α}, l.find? p = none → ∀ {x : α}, p x = true →
      (l ++ [x]).find? p = some x := by
  intro l
  induction l with
  | nil => intro _ x hx; exact List.find?_cons_of_pos _ hx
  | cons a rest ih =>
    intro h x hx
    rw [List.find?_cons] at h
    rcases ha : p a with _ | _
    · rw [ha] at h
      simpa [List.find?_cons, ha] using ih h hx
    · rw [ha] at h; exact absurd h (by simp)

/-! ### Frame and congruence lemmas for the quota service -/

theorem check_frame (db : DB) (now : DateTime) (user_id feature_code : String) :
    (check_and_increment_usage db now user_id feature_code).2.plans = db.plans ∧
    (check_and_increment_usage db now user_id feature_code).2.subscriptions =
      db.subscriptions ∧
    (check_and_increment_usage db now user_id feature_code).2.plan_features =
      db.plan_features := by
  unfold check_and_increment_usage
  rcases hp : get_user_plan db user_id with e | plan <;> simp only [hp]
  · simp
  · rcases hf : get_plan_feature db plan.id feature_code with _ | feature <;>
      simp only [hf]
    · simp
    · rcases hmq : feature.monthly_quota with _ | q <;> simp only [hmq]
      · simp
      · by_cases hq : q = 0
        · simp [hq]
        · simp only [if_neg hq]
          rcases hu : List.find?
              (UsageKey user_id plan.id feature_code
                (currentPeriod db now user_id).1
                (currentPeriod db now user_id).2) db.usages with _ | usage <;>
            simp only [hu]
          · split <;> simp
          · split <;> simp

theorem get_user_plan_congr {db1 db2 : DB}
    (hs : db1.subscriptions = db2.subscriptions) (hp : db1.plans = db2.plans)
    (user_id : String) :
    get_user_plan db1 user_id = get_user_plan db2 user_id := by
  unfold get_user_plan get_user_subscription
  rw [hs, hp]

theorem get_plan_feature_congr {db1 db2 : DB}
    (hf : db1.plan_features = db2.plan_features) (plan_id : Nat)
    (feature_code : String) :
    get_plan_feature db1 plan_id feature_code =
      get_plan_feature db2 plan_id feature_code := by
  unfold get_plan_feature
  rw [hf]

/-! ### Claim theorems about `check_and_increment_usage` -/

/-- C2: when the plan's feature is configured with `monthly_quota = None`
(unlimited), `check_and_increment_usage` returns `True` with the database
unchanged (no usage record created or modified); when `monthly_quota = 0`
(disabled), it raises `QuotaExceededError` with limit 0 and used 0, also
with the database unchanged. -/
theorem quota_unlimited_and_disabled (db : DB) (now : DateTime)
    (user_id feature_code : String) (plan : PricingPlan) (feature : PlanFeature)
    (hplan : get_user_plan db user_id = .ok plan)
    (hfeat : get_plan_feature db plan.id feature_code = some feature) :
    (feature.monthly_quota = none →
      check_and_increment_usage db now user_id feature_code = (.ok true, db)) ∧
    (feature.monthly_quota = some 0 →
      check_and_increment_usage db now user_id feature_code =
        (.error (.quotaExceeded feature_code 0 0), db)) := by
  constructor
  · intro h
    simp [check_and_increment_usage, hplan, hfeat, h]
  · intro h
    simp [check_and_increment_usage, hplan, hfeat, h]

/-- C2 witness: a concrete database with an unlimited feature
configuration. -/
theorem quota_unlimited_and_disabled_witness :
    (get_user_plan dbUnlimited "u1" = .ok planFree) ∧
    (get_plan_feature dbUnlimited 1 "cv_generate" =
      some { plan_id := 1, feature_code := "cv_generate",
             monthly_quota := none, hard_cap := true }) ∧
    check_and_increment_usage dbUnlimited t2025oct "u1" "cv_generate" =
      (.ok true, dbUnlimited) := by
  refine ⟨by decide, by decide, ?_⟩
  exact (quota_unlimited_and_disabled dbUnlimited t2025oct "u1" "cv_generate"
    planFree
    { plan_id := 1, feature_code := "cv_generate", monthly_quota := none,
      hard_cap := true }
    (by decide) (by decide)).1 rfl

/-- C9: when the user's plan has no `PlanFeature` row for the requested
feature code, `check_and_increment_usage` returns `True` and leaves the
database (in particular the usage table) completely unchanged. -/
theorem quota_unconfigured_feature_allows (db : DB) (now : DateTime)
    (user_id feature_code : String) (plan : PricingPlan)
    (hplan : get_user_plan db user_id = .ok plan)
    (hfeat : get_plan_feature db plan.id feature_code = none) :
    check_and_increment_usage db now user_id feature_code = (.ok true, db) := by
  simp [check_and_increment_usage, hplan, hfeat]

/-- C9 witness: a concrete database whose plan configures no feature rows. -/
theorem quota_unconfigured_feature_allows_witness :
    (get_user_plan dbNoFeature "u1" = .ok planFree) ∧
    (get_plan_feature dbNoFeature 1 "mock_interview" = none) ∧
    check_and_increment_usage dbNoFeature t2025oct "u1" "mock_interview" =
      (.ok true, dbNoFeature) := by
  refine ⟨by decide, by decide, ?_⟩
  exact quota_unconfigured_feature_allows dbNoFeature t2025oct "u1"
    "mock_interview" planFree (by decide) (by decide)

/-- C1: with a configured positive `monthly_quota` and the current period's
usage row at or above the limit, `check_and_increment_usage` raises
`QuotaExceededError` carrying that limit and used count and leaves the
database (in particular `used_count`) unchanged when `hard_cap` is true;
when `hard_cap` is false it returns `True` and increments that usage row's
`used_count` by exactly 1. -/
theorem quota_at_limit_hard_vs_soft (db : DB) (now : DateTime)
    (user_id feature_code : String) (plan : PricingPlan)
    (feature : PlanFeature) (q : Int) (u : UserFeatureUsage)
    (hplan : get_user_plan db user_id = .ok plan)
    (hfeat : get_plan_feature db plan.id feature_code = some feature)
    (hq : feature.monthly_quota = some q) (hqpos : 0 < q)
    (hu : db.usages.find? (usageKeyOf db now user_id plan.id feature_code) =
      some u)
    (hge : q ≤ u.used_count) :
    (feature.hard_cap = true →
      check_and_increment_usage db now user_id feature_code =
        (.error (.quotaExceeded feature_code q u.used_count), db)) ∧
    (feature.hard_cap = false →
      check_and_increment_usage db now user_id feature_code =
        (.ok true,
          { db with usages :=
              (incrementFirst (usageKeyOf db now user_id plan.id feature_code)
                db.usages) }) ∧
      (check_and_increment_usage db now user_id feature_code).2.usages.find?
          (usageKeyOf db now user_id plan.id feature_code) =
        some { u with used_count := u.used_count + 1 }) := by
  have hq0 : ¬(q = 0) := by omega
  rw [usageKeyOf] at hu
  constructor
  · intro hcap
    simp [check_and_increment_usage, hplan, hfeat, hq, hq0, hu, hge, hcap]
  · intro hcap
    have hmain : check_and_increment_usage db now user_id feature_code =
        (.ok true,
          { db with usages :=
              (incrementFirst (usageKeyOf db now user_id plan.id feature_code)
                db.usages) }) := by
      simp [check_and_increment_usage, usageKeyOf, hplan, hfeat, hq, hq0, hu,
        hcap]
    refine ⟨hmain, ?_⟩
    rw [hmain, usageKeyOf]
    exact find?_incrementFirst _
      (UsageKey_increment user_id plan.id feature_code _ _) hu

/-- C1 witness: hard-capped `cv_generate` at its limit of 2 raises and leaves
the database unchanged. -/
theorem quota_at_limit_hard_vs_soft_witness :
    (get_user_plan dbAtLimit "u1" = .ok planFree) ∧
    (get_plan_feature dbAtLimit 1 "cv_generate" =
      some { plan_id := 1, feature_code := "cv_generate",
             monthly_quota := some 2, hard_cap := true }) ∧
    (dbAtLimit.usages.find? (usageKeyOf dbAtLimit t2025oct "u1" 1 "cv_generate") =
      some { user_id := "u1", plan_id := 1, feature_code := "cv_generate",
             period_start := p2025oct1, period_end := p2025nov1,
             used_count := 2 }) ∧
    check_and_increment_usage dbAtLimit t2025oct "u1" "cv_generate" =
      (.error (.quotaExceeded "cv_generate" 2 2), dbAtLimit) := by
  refine ⟨by decide, by decide, by decide, ?_⟩
  exact (quota_at_limit_hard_vs_soft dbAtLimit t2025oct "u1" "cv_generate"
    planFree
    { plan_id := 1, feature_code := "cv_generate", monthly_quota := some 2,
      hard_cap := true } 2
    { user_id := "u1", plan_id := 1, feature_code := "cv_generate",
      period_start := p2025oct1, period_end := p2025nov1, used_count := 2 }
    (by decide) (by decide) rfl (by decide) (by decide) (by decide)).1 rfl

/-- One `check_and_increment_usage` call preserves the hard-cap bound
`used_count ≤ q` on every usage row of the user, plan and feature. -/
theorem check_step_cap (db : DB) (now : DateTime)
    (user_id feature_code : String) (plan : PricingPlan)
    (feature : PlanFeature) (q : Int)
    (hplan : get_user_plan db user_id = .ok plan)
    (hfeat : get_plan_feature db plan.id feature_code = some feature)
    (hq : feature.monthly_quota = some q) (hcap : feature.hard_cap = true)
    (hqpos : 0 < q)
    (hall : ∀ u ∈ db.usages,
      MatchesUFC user_id plan.id feature_code u → u.used_count ≤ q) :
    ∀ u ∈ (check_and_increment_usage db now user_id feature_code).2.usages,
      MatchesUFC user_id plan.id feature_code u → u.used_count ≤ q := by
  have hq0 : ¬(q = 0) := by omega
  simp only [check_and_increment_usage, hplan, hfeat, hq, if_neg hq0]
  rcases hfind : List.find?
      (UsageKey user_id plan.id feature_code
        (currentPeriod db now user_id).1
        (currentPeriod db now user_id).2) db.usages with _ | usage <;>
    simp only [hfind]
  · -- no usage row yet: one is created with `used_count = 0` then incremented
    have h0q : ¬((0 : Int) ≥ q ∧ feature.hard_cap = true) := by
      intro h; omega
    simp only [if_neg h0q]
    intro v hv hm
    have hkey : UsageKey user_id plan.id feature_code
        (currentPeriod db now user_id).1 (currentPeriod db now user_id).2
        { user_id := user_id, plan_id := plan.id,
          feature_code := feature_code,
          period_start := (currentPeriod db now user_id).1,
          period_end := (currentPeriod db now user_id).2,
          used_count := 0 } = true := by
      simp [UsageKey]
    have hfind2 : List.find?
        (UsageKey user_id plan.id feature_code
          (currentPeriod db now user_id).1
          (currentPeriod db now user_id).2)
        (db.usages ++
          [{ user_id := user_id, plan_id := plan.id,
             feature_code := feature_code,
             period_start := (currentPeriod db now user_id).1,
             period_end := (currentPeriod db now user_id).2,
             used_count := 0 }]) =
        some { user_id := user_id, plan_id := plan.id,
               feature_code := feature_code,
               period_start := (currentPeriod db now user_id).1,
               period_end := (currentPeriod db now user_id).2,
               used_count := 0 } :=
      find?_append_singleton hfind hkey
    rcases mem_incrementFirst _ hfind2 hv with h | h
    · rcases List.mem_append.mp h with h1 | h1
      · exact hall v h1 hm
      · rcases List.mem_singleton.mp h1 with rfl
        simpa using le_of_lt hqpos
    · rcases h with rfl
      simpa using hqpos
  · -- existing usage row
    have husage := List.mem_of_find?_eq_some hfind
    by_cases hge : usage.used_count ≥ q
    · simp only [if_pos (And.intro hge hcap)]
      exact hall
    · have hcond : ¬(usage.used_count ≥ q ∧ feature.hard_cap = true) := by
        intro h; exact hge h.1
      simp only [if_neg hcond]
      intro v hv hm
      rcases mem_incrementFirst _ hfind hv with h | h
      · exact hall v h hm
      · rcases h with rfl
        simp only
        omega

/-- C3: for a hard-capped feature with positive quota `q`, the invariant
`used_count ≤ q` on every usage row of that user, plan and feature
(in particular starting from a fresh row with `used_count = 0`, or from no
row at all) is preserved by every sequence of
`check_and_increment_usage` calls: no sequence can drive `used_count`
above `q`. -/
theorem quota_hard_cap_invariant (user_id feature_code : String)
    (plan : PricingPlan) (feature : PlanFeature) (q : Int)
    (hq : feature.monthly_quota = some q) (hcap : feature.hard_cap = true)
    (hqpos : 0 < q) (nows : List DateTime) (db : DB)
    (hplan : get_user_plan db user_id = .ok plan)
    (hfeat : get_plan_feature db plan.id feature_code = some feature)
    (hall : ∀ u ∈ db.usages,
      MatchesUFC user_id plan.id feature_code u → u.used_count ≤ q) :
    ∀ u ∈ (runCalls user_id feature_code db nows).usages,
      MatchesUFC user_id plan.id feature_code u → u.used_count ≤ q := by
  induction nows generalizing db with
  | nil => exact hall
  | cons now rest ih =>
    simp only [runCalls]
    obtain ⟨hfp, hfs, hff⟩ := check_frame db now user_id feature_code
    exact ih _
      (by rw [get_user_plan_congr hfs hfp]; exact hplan)
      (by rw [get_plan_feature_congr hff]; exact hfeat)
      (check_step_cap db now user_id feature_code plan feature q hplan hfeat
        hq hcap hqpos hall)

/-- C3 witness: three consecutive calls against a fresh hard cap of 1 never
push any matching row above 1. -/
theorem quota_hard_cap_invariant_witness :
    (get_user_plan dbFreshCap "u1" = .ok planFree) ∧
    (get_plan_feature dbFreshCap 1 "cv_generate" =
      some { plan_id := 1, feature_code := "cv_generate",
             monthly_quota := some 1, hard_cap := true }) ∧
    ∀ u ∈ (runCalls "u1" "cv_generate" dbFreshCap
        [t2025oct, t2025oct, t2025oct]).usages,
      MatchesUFC "u1" 1 "cv_generate" u → u.used_count ≤ 1 := by
  refine ⟨by decide, by decide, ?_⟩
  exact quota_hard_cap_invariant "u1" "cv_generate" planFree
    { plan_id := 1, feature_code := "cv_generate", monthly_quota := some 1,
      hard_cap := true } 1 rfl rfl (by decide)
    [t2025oct, t2025oct, t2025oct] dbFreshCap (by decide) (by decide)
    (by simp [dbFreshCap])

/-- C10: on any fixed database state, `can_use_feature` returns `can_use =
True` exactly when `check_and_increment_usage` with the same user and
feature on that state would return `True` without raising; and whenever
`check_and_increment_usage` would raise (a `QuotaExceededError` or any
other modelled exception), `can_use_feature` returns `False` together with
a non-`None` reason string. -/
theorem can_use_feature_iff_check (db : DB) (now : DateTime)
    (user_id feature_code : String) :
    ((can_use_feature db now user_id feature_code).1 = true ↔
      (check_and_increment_usage db now user_id feature_code).1 = .ok true) ∧
    (∀ e : PyError,
      (check_and_increment_usage db now user_id feature_code).1 = .error e →
      (can_use_feature db now user_id feature_code).1 = false ∧
      (can_use_feature db now user_id feature_code).2 ≠ none) := by
  unfold can_use_feature check_and_increment_usage
  rcases hp : get_user_plan db user_id with e | plan <;> simp only [hp]
  · simp
  · rcases hf : get_plan_feature db plan.id feature_code with _ | feature <;>
      simp only [hf]
    · simp
    · rcases hmq : feature.monthly_quota with _ | q <;> simp only [hmq]
      · simp
      · by_cases hq : q = 0
        · simp [hq]
        · simp only [if_neg hq]
          rcases hu : List.find?
              (UsageKey user_id plan.id feature_code
                (currentPeriod db now user_id).1
                (currentPeriod db now user_id).2) db.usages with _ | usage <;>
            simp only [hu]
          · by_cases hc : (0 : Int) ≥ q
            · by_cases hcap : feature.hard_cap = true
              · simp [hc, hcap]
              · simp [hc, hcap]
            · simp [hc]
          · by_cases hc : usage.used_count ≥ q
            · by_cases hcap : feature.hard_cap = true
              · simp [hc, hcap]
              · simp [hc, hcap]
            · simp [hc]

/-- C10 witness: on a database where the feature is disabled,
`check_and_increment_usage` raises and `can_use_feature` reports `False`
with a reason. -/
theorem can_use_feature_iff_check_witness :
    ((check_and_increment_usage dbDisabled t2025oct "u1" "cv_generate").1 =
      .error (.quotaExceeded "cv_generate" 0 0)) ∧
    (can_use_feature dbDisabled t2025oct "u1" "cv_generate").1 = false ∧
    (can_use_feature dbDisabled t2025oct "u1" "cv_generate").2 ≠ none := by
  refine ⟨by decide, ?_⟩
  exact (can_use_feature_iff_check dbDisabled t2025oct "u1" "cv_generate").2
    (.quotaExceeded "cv_generate" 0 0) (by decide)

/-! ### Calendar lemmas for the default billing window -/

theorem daysInMonth_ge (y m : Nat) : 28 ≤ daysInMonth y m := by
  unfold daysInMonth
  split_ifs <;> omega

theorem daysInMonth_le (y m : Nat) : daysInMonth y m ≤ 31 := by
  unfold daysInMonth
  split_ifs <;> omega

theorem addDays_add (d : DateTime) (a b : Nat) :
    addDays d (a + b) = addDays (addDays d a) b := by
  induction a generalizing d with
  | zero => simp [addDays]
  | succ a ih =>
    have h1 : a + 1 + b = (a + b) + 1 := by omega
    rw [h1]
    show addDays (nextDay d) (a + b) = addDays (addDays d (a + 1)) b
    rw [ih (nextDay d)]
    rfl

theorem addDays_within (k : Nat) :
    ∀ y mo d h mi s us : Nat, 1 ≤ d → d + k ≤ daysInMonth y mo →
      addDays ⟨y, mo, d, h, mi, s, us⟩ k = ⟨y, mo, d + k, h, mi, s, us⟩ := by
  induction k with
  | zero => intro y mo d h mi s us _ _; simp [addDays]
  | succ k ih =>
    intro y mo d h mi s us h1 h2
    have hlt : d < daysInMonth y mo := by omega
    have hn : nextDay ⟨y, mo, d, h, mi, s, us⟩ = ⟨y, mo, d + 1, h, mi, s, us⟩ := by
      simp [nextDay, hlt]
    have hrec : addDays ⟨y, mo, d, h, mi, s, us⟩ (k + 1) =
        addDays (nextDay ⟨y, mo, d, h, mi, s, us⟩) k := rfl
    rw [hrec, hn, ih y mo (d + 1) h mi s us (by omega) (by omega)]
    have : d + 1 + k = d + (k + 1) := by omega
    rw [this]

theorem nextDay_endOfMonth (y mo h mi s us : Nat) :
    nextDay ⟨y, mo, daysInMonth y mo, h, mi, s, us⟩ =
      if mo < 12 then ⟨y, mo + 1, 1, h, mi, s, us⟩
      else ⟨y + 1, 1, 1, h, mi, s, us⟩ := by
  unfold nextDay
  simp only [lt_irrefl, if_false]

/-- C8: for any instant with a valid month, the no-subscription billing
window of `QuotaService` (`check_and_increment_usage`, `get_usage_stats`
and `can_use_feature` all compute it with the same two lines) is exactly
the current calendar month: `period_start` is the first day of the current
month at midnight, and `(period_start + timedelta(days=32)).replace(day=1)`
is the first day of the immediately following month at midnight, for every
month length. -/
theorem default_period_is_calendar_month (now : DateTime)
    (hm1 : 1 ≤ now.month) (hm12 : now.month ≤ 12) :
    defaultPeriod now =
      (⟨now.year, now.month, 1, 0, 0, 0, 0⟩,
       if now.month = 12 then ⟨now.year + 1, 1, 1, 0, 0, 0, 0⟩
       else ⟨now.year, now.month + 1, 1, 0, 0, 0, 0⟩) := by
  have h28 := daysInMonth_ge now.year now.month
  have h31 := daysInMonth_le now.year now.month
  have hps : startOfCurrentMonth now = ⟨now.year, now.month, 1, 0, 0, 0, 0⟩ :=
    rfl
  simp only [defaultPeriod, hps, Prod.mk.injEq]
  refine ⟨by trivial, ?_⟩
  have hsplit : (32 : Nat) = (daysInMonth now.year now.month - 1) +
      (1 + (32 - daysInMonth now.year now.month)) := by omega
  have s1 : addDays ⟨now.year, now.month, 1, 0, 0, 0, 0⟩
      (daysInMonth now.year now.month - 1) =
      ⟨now.year, now.month, daysInMonth now.year now.month, 0, 0, 0, 0⟩ := by
    rw [addDays_within (daysInMonth now.year now.month - 1) now.year now.month
      1 0 0 0 0 (by omega) (by omega)]
    have h : 1 + (daysInMonth now.year now.month - 1) =
        daysInMonth now.year now.month := by omega
    rw [h]
  rw [hsplit, addDays_add, s1, addDays_add]
  have hone : addDays
      ⟨now.year, now.month, daysInMonth now.year now.month, 0, 0, 0, 0⟩ 1 =
      nextDay ⟨now.year, now.month, daysInMonth now.year now.month,
        0, 0, 0, 0⟩ := rfl
  rw [hone, nextDay_endOfMonth]
  by_cases h12 : now.month = 12
  · rw [h12] at h28 ⊢
    rw [if_neg (by omega : ¬(12 : Nat) < 12), if_pos rfl]
    have hd : daysInMonth (now.year + 1) 1 = 31 := rfl
    rw [addDays_within (32 - daysInMonth now.year 12) (now.year + 1) 1 1
      0 0 0 0 (by omega) (by omega)]
    rfl
  · have hlt : now.month < 12 := by omega
    rw [if_pos hlt, if_neg h12]
    have hge := daysInMonth_ge now.year (now.month + 1)
    rw [addDays_within (32 - daysInMonth now.year now.month) now.year
      (now.month + 1) 1 0 0 0 0 (by omega) (by omega)]
    rfl

/-- C8 witness: December 2025 rolls over to January 2026. -/
theorem default_period_is_calendar_month_witness :
    (1 ≤ (12 : Nat) ∧ (12 : Nat) ≤ 12) ∧
    defaultPeriod ⟨2025, 12, 25, 9, 30, 0, 0⟩ =
      (⟨2025, 12, 1, 0, 0, 0, 0⟩,
       if (12 : Nat) = 12 then ⟨2026, 1, 1, 0, 0, 0, 0⟩
       else ⟨2025, 13, 1, 0, 0, 0, 0⟩) := by
  refine ⟨by omega, ?_⟩
  exact default_period_is_calendar_month ⟨2025, 12, 25, 9, 30, 0, 0⟩
    (by decide) (by decide)

/-! ### Claim theorems about the LLM orchestration -/

theorem getElem_bang_mod_mem {α : Type} [Inhabited α] (l : List α)
    (hl : 0 < l.length) (j : Nat) : l[j % l.length]! ∈ l := by
  have h : j % l.length < l.length := Nat.mod_lt _ hl
  rw [getElem!_pos l _ h]
  exact List.getElem_mem h

theorem question_templates_length_pos (j s : String) (i : Nat) :
    0 < (question_templates j s
      (question_types[i % question_types.length]!)).length := by
  have hlen : question_types.length = 4 := rfl
  have h4 : i % question_types.length = 0 ∨ i % question_types.length = 1 ∨
      i % question_types.length = 2 ∨ i % question_types.length = 3 := by
    rw [hlen]; omega
  rcases h4 with h | h | h | h <;> rw [h] <;> exact Nat.succ_pos 3

/-- C5: with no LLM client configured, `generate_interview_plan` returns the
dummy fallback: a list of exactly `num_questions` questions whose `idx`
fields run `1..n` in order, whose `type` fields cycle through
`question_types` (technical, behavioral, situational, general), and whose
`question_text` is drawn from the hardcoded template table for that type. -/
theorem dummy_fallback_plan (job_title seniority : String) (rnd : Nat → Nat)
    (num_questions : Nat) (api_response : Option String)
    (parse : String → Option Json) :
    generate_interview_plan false api_response parse job_title seniority rnd
        num_questions =
      Json.arr ((generate_dummy_questions job_title seniority rnd
        num_questions).map dummyQuestionToJson) ∧
    (generate_dummy_questions job_title seniority rnd num_questions).length =
      num_questions ∧
    ∀ i, i < num_questions →
      ∃ q : DummyQuestion,
        (generate_dummy_questions job_title seniority rnd num_questions)[i]? =
          some q ∧
        q.idx = i + 1 ∧ q.type = question_types[i % 4]! ∧
        q.question_text ∈ question_templates job_title seniority q.type := by
  refine ⟨rfl, by simp [generate_dummy_questions], ?_⟩
  intro i hi
  have hq : (generate_dummy_questions job_title seniority rnd
      num_questions)[i]? =
      some { idx := i + 1
             type := question_types[i % question_types.length]!
             competency := (competencies
               (question_types[i % question_types.length]!))[rnd i %
                 (competencies
                   (question_types[i % question_types.length]!)).length]!
             question_text := (question_templates job_title seniority
               (question_types[i % question_types.length]!))[i %
                 (question_templates job_title seniority
                   (question_types[i % question_types.length]!)).length]! } := by
    unfold generate_dummy_questions
    rw [List.getElem?_map, List.getElem?_range hi]
    rfl
  refine ⟨_, hq, rfl, rfl, ?_⟩
  exact getElem_bang_mod_mem _
    (question_templates_length_pos job_title seniority i) i

/-- C5 witness: the dummy fallback at a concrete input. -/
theorem dummy_fallback_plan_witness :
    generate_interview_plan false none (fun _ => none) "Engineer" "senior"
        (fun _ => 0) 5 =
      Json.arr ((generate_dummy_questions "Engineer" "senior" (fun _ => 0)
        5).map dummyQuestionToJson) ∧
    (generate_dummy_questions "Engineer" "senior" (fun _ => 0) 5).length = 5 ∧
    ∀ i, i < 5 →
      ∃ q : DummyQuestion,
        (generate_dummy_questions "Engineer" "senior" (fun _ => 0) 5)[i]? =
          some q ∧
        q.idx = i + 1 ∧ q.type = question_types[i % 4]! ∧
        q.question_text ∈ question_templates "Engineer" "senior" q.type :=
  dummy_fallback_plan "Engineer" "senior" (fun _ => 0) 5 none (fun _ => none)

/-- C4 counterexample: `"\x7b\x7d"` parses successfully to the JSON object
`obj []`, yet `generate_interview_plan` does not return that parsed value
as-is: the `isinstance(questions, list) and len(questions) > 0` check fails
and the dummy fallback is returned instead. -/
theorem llm_parse_only_counterexample :
    ((fun _ => some (Json.obj [])) : String → Option Json) "\x7b\x7d" =
      some (Json.obj []) ∧
    generate_interview_plan true (some "\x7b\x7d")
        (fun _ => some (Json.obj [])) "Software Engineer" "senior"
        (fun _ => 0) 1 ≠ Json.obj [] := by
  refine ⟨rfl, ?_⟩
  have h : generate_interview_plan true (some "\x7b\x7d")
      (fun _ => some (Json.obj [])) "Software Engineer" "senior"
      (fun _ => 0) 1 =
      Json.arr ((generate_dummy_questions "Software Engineer" "senior"
        (fun _ => 0) 1).map dummyQuestionToJson) := rfl
  rw [h]
  intro hc
  exact Json.noConfusion hc

/-- C4 (amended): whenever the configured LLM returns a truthy response on
which JSON parsing succeeds, the parsed value is returned as-is only if it
passes a shallow structural check — a non-empty JSON array for
`generate_interview_plan`, (via Python `in`) the keys `score_overall`,
`dimension_scores` and `coach_notes` for `evaluate_answer`, and the five
report keys `overall_score`, `strengths`, `weaknesses`, `action_plan` and
`suggested_roles` for `summarize_session` — otherwise the dummy fallback is
returned. -/
theorem llm_shallow_structural_validation (client : Bool) (r : String)
    (api_response : Option String) (parse : String → Option Json) (v : Json)
    (job_title seniority : String) (rnd : Nat → Nat) (num_questions : Nat)
    (dummy : Json)
    (hcall : call_llm client api_response = some r)
    (hr : ¬(r = "")) (hv : parse r = some v) :
    (generate_interview_plan client api_response parse job_title seniority rnd
        num_questions =
      match v with
      | Json.arr questions =>
        if 0 < questions.length then Json.arr questions
        else Json.arr ((generate_dummy_questions job_title seniority rnd
          num_questions).map dummyQuestionToJson)
      | _ => Json.arr ((generate_dummy_questions job_title seniority rnd
          num_questions).map dummyQuestionToJson)) ∧
    (∀ b1 b2 b3 : Bool,
      pyContains "score_overall" v = .ok b1 →
      pyContains "dimension_scores" v = .ok b2 →
      pyContains "coach_notes" v = .ok b3 →
      evaluate_answer client api_response parse dummy =
        .ok (if b1 && b2 && b3 then v else dummy)) ∧
    (∀ b1 b2 b3 b4 b5 : Bool,
      pyContains "overall_score" v = .ok b1 →
      pyContains "strengths" v = .ok b2 →
      pyContains "weaknesses" v = .ok b3 →
      pyContains "action_plan" v = .ok b4 →
      pyContains "suggested_roles" v = .ok b5 →
      summarize_session client api_response parse dummy =
        .ok (if b1 && b2 && b3 && b4 && b5 then v else dummy)) := by
  refine ⟨?_, ?_, ?_⟩
  · simp only [generate_interview_plan, hcall, if_neg hr, hv]
    rcases v with _ | b | n | s | xs | fields <;> rfl
  · intro b1 b2 b3 h1 h2 h3
    simp only [evaluate_answer, hcall, if_neg hr, hv, h1, h2, h3]
    rcases b1 <;> rcases b2 <;> rcases b3 <;> simp
  · intro b1 b2 b3 b4 b5 h1 h2 h3 h4 h5
    simp only [summarize_session, hcall, if_neg hr, hv, h1, h2, h3, h4, h5]
    rcases b1 <;> rcases b2 <;> rcases b3 <;> rcases b4 <;> rcases b5 <;> simp

/-- C4 witness: a parsed response object carrying the three evaluation keys
and the five report keys, exercising both the `evaluate_answer` and the
`summarize_session` conjuncts. -/
theorem llm_shallow_structural_validation_witness :
    (call_llm true (some "resp") = some "resp") ∧
    ¬(("resp" : String) = "") ∧
    ((fun _ => some jsonReportFixture) : String → Option Json) "resp" =
      some jsonReportFixture ∧
    (∀ b1 b2 b3 : Bool,
      pyContains "score_overall" jsonReportFixture = .ok b1 →
      pyContains "dimension_scores" jsonReportFixture = .ok b2 →
      pyContains "coach_notes" jsonReportFixture = .ok b3 →
      evaluate_answer true (some "resp") (fun _ => some jsonReportFixture)
          Json.null =
        .ok (if b1 && b2 && b3 then jsonReportFixture else Json.null)) ∧
    (∀ b1 b2 b3 b4 b5 : Bool,
      pyContains "overall_score" jsonReportFixture = .ok b1 →
      pyContains "strengths" jsonReportFixture = .ok b2 →
      pyContains "weaknesses" jsonReportFixture = .ok b3 →
      pyContains "action_plan" jsonReportFixture = .ok b4 →
      pyContains "suggested_roles" jsonReportFixture = .ok b5 →
      summarize_session true (some "resp") (fun _ => some jsonReportFixture)
          Json.null =
        .ok (if b1 && b2 && b3 && b4 && b5 then jsonReportFixture
          else Json.null)) := by
  refine ⟨rfl, by decide, rfl, ?_, ?_⟩
  · exact (llm_shallow_structural_validation true "resp" (some "resp")
      (fun _ => some jsonReportFixture) jsonReportFixture
      "SE" "senior" (fun _ => 0) 1 Json.null rfl (by decide) rfl).2.1
  · exact (llm_shallow_structural_validation true "resp" (some "resp")
      (fun _ => some jsonReportFixture) jsonReportFixture
      "SE" "senior" (fun _ => 0) 1 Json.null rfl (by decide) rfl).2.2

/-! ### Claim theorem about the voice-agent speech handler -/

/-- C6: on every committed agent utterance, the interview is marked complete
and the final transcript save plus room disconnect is scheduled if and only
if the lowercased utterance contains one of the eight hardcoded closing
keywords, or the number of assistant entries in the transcript so far
(including this utterance, which is appended first), integer-divided by 2,
is at least `num_questions`. -/
theorem agent_completion_iff (num_questions : Nat) (st : AgentState)
    (text : String) :
    closing_keywords.length = 8 ∧
    ((on_agent_speech num_questions st text).2 = true ↔
      ((∃ keyword ∈ closing_keywords,
          strContains (lowerStr text) keyword = true) ∨
        num_questions ≤
          ((st.transcript ++
              [({ role := "assistant", content := text } : TranscriptEntry)]).filter
            fun t => decide (t.role = "assistant")).length / 2)) ∧
    (on_agent_speech num_questions st text).1.interview_complete =
      (st.interview_complete || (on_agent_speech num_questions st text).2) ∧
    (on_agent_speech num_questions st text).1.transcript =
      st.transcript ++ [{ role := "assistant", content := text }] := by
  have hsplit : ∀ (b : Bool) (x y : AgentState),
      (((if b = true then (x, true) else (y, false)) :
        AgentState × Bool).2 = true) ↔ b = true := by
    intro b x y
    cases b <;> simp
  refine ⟨rfl, ?_, ?_, ?_⟩
  · simp only [on_agent_speech]
    rw [hsplit]
    simp [List.any_eq_true, decide_eq_true_eq]
  · simp only [on_agent_speech]
    split
    · simp
    · simp
  · simp only [on_agent_speech]
    split
    · simp
    · simp

/-! ### Claim theorem about the report retry loop -/

theorem retry_from_three (reads : Nat → Option (List TranscriptEntry))
    (d : Nat) : retry_from reads 3 d = (reads 3, []) := by
  unfold retry_from
  have h : ¬(3 < max_retries) := by simp [max_retries]
  simp only [dif_neg h]
  by_cases hh : hasTranscript (reads 3) = true <;> simp [hh]

theorem retry_from_two (reads : Nat → Option (List TranscriptEntry))
    (d : Nat) :
    retry_from reads 2 d =
      if hasTranscript (reads 2) then (reads 2, [])
      else (reads 3, [d]) := by
  unfold retry_from
  have h : 2 < max_retries := by simp [max_retries]
  by_cases hh : hasTranscript (reads 2) = true
  · simp [hh]
  · simp only [hh, Bool.false_eq_true, if_false, dif_pos h]
    simp [retry_from_three]

theorem retry_from_one (reads : Nat → Option (List TranscriptEntry)) :
    retry_from reads 1 500 =
      if hasTranscript (reads 1) then (reads 1, [])
      else if hasTranscript (reads 2) then (reads 2, [500])
      else (reads 3, [500, 1000]) := by
  unfold retry_from
  have h : 1 < max_retries := by simp [max_retries]
  by_cases h1 : hasTranscript (reads 1) = true
  · simp [h1]
  · simp only [h1, Bool.false_eq_true, if_false, dif_pos h]
    rw [retry_from_two]
    by_cases h2 : hasTranscript (reads 2) = true <;> simp [h2]

theorem report_eq (reads : Nat → Option (List TranscriptEntry)) :
    get_or_generate_report true false reads =
      ((match (retry_from reads 1 500).1 with
        | none => ReportOutcome.inProgress
        | some l =>
          if l.length < 1 then ReportOutcome.inProgress
          else ReportOutcome.generate l),
       (retry_from reads 1 500).2) := by
  simp only [get_or_generate_report, Bool.true_eq_false, Bool.false_eq_true,
    if_false]
  rcases h : retry_from reads 1 500 with ⟨td, sleeps⟩
  rcases td with _ | l
  · rfl
  · dsimp only
    split <;> rfl

/-- C7: for an existing session without a completed summary, the endpoint
re-reads the stored transcript at most 3 times (the outcome depends only on
the first three reads), sleeps between attempts with exponentially doubling
delay starting at 0.5 s (the performed sleeps are a prefix of
`[500 ms, 1000 ms]`), returns `in_progress` with summary `None` (not an
HTTP error) when after the final attempt the transcript still has fewer
than 1 entry, and exits the retry loop immediately on a transcript with at
least 1 entry. -/
theorem report_retry_behavior (reads : Nat → Option (List TranscriptEntry)) :
    ((get_or_generate_report true false reads).2 = [] ∨
     (get_or_generate_report true false reads).2 = [500] ∨
     (get_or_generate_report true false reads).2 = [500, 1000]) ∧
    (∀ l : List TranscriptEntry, reads 1 = some l → 1 ≤ l.length →
      get_or_generate_report true false reads = (.generate l, [])) ∧
    ((hasTranscript (reads 1) = false ∧ hasTranscript (reads 2) = false ∧
      hasTranscript (reads 3) = false) →
      get_or_generate_report true false reads =
        (.inProgress, [500, 1000])) ∧
    (∀ reads2 : Nat → Option (List TranscriptEntry),
      (∀ k, 1 ≤ k → k ≤ 3 → reads k = reads2 k) →
      get_or_generate_report true false reads =
        get_or_generate_report true false reads2) := by
  refine ⟨?_, ?_, ?_, ?_⟩
  · rw [report_eq, retry_from_one]
    by_cases h1 : hasTranscript (reads 1) = true <;>
      by_cases h2 : hasTranscript (reads 2) = true <;>
        simp [h1, h2]
  · intro l hl hlen
    have hne : l ≠ [] := by
      intro hcon
      rw [hcon] at hlen
      simp at hlen
    rw [report_eq, retry_from_one, hl]
    have h1 : hasTranscript (some l) = true := by simp [hasTranscript, hlen]
    simp [h1, hne]
  · rintro ⟨h1, h2, h3⟩
    rw [report_eq, retry_from_one]
    simp only [h1, h2, Bool.false_eq_true, if_false]
    rcases hr3 : reads 3 with _ | l
    · simp
    · rw [hr3] at h3
      simp [hasTranscript] at h3
      simp [h3]
  · intro reads2 hk
    have e1 := hk 1 (by omega) (by omega)
    have e2 := hk 2 (by omega) (by omega)
    have e3 := hk 3 (by omega) (by omega)
    rw [report_eq, report_eq, retry_from_one, retry_from_one, e1, e2, e3]

/-- C7 witness: reads that never find a transcript produce `in_progress`
after sleeps of 500 ms and 1000 ms, and a first read with one entry exits
immediately. -/
theorem report_retry_behavior_witness :
    (hasTranscript ((fun _ => none) 1) = false ∧
     hasTranscript ((fun _ => none) 2) = false ∧
     hasTranscript ((fun _ => none) 3) = false) ∧
    get_or_generate_report true false (fun _ => none) =
      (.inProgress, [500, 1000]) ∧
    get_or_generate_report true false
        (fun _ => some [{ role := "assistant", content := "hi" }]) =
      (.generate [{ role := "assistant", content := "hi" }], []) := by
  refine ⟨⟨rfl, rfl, rfl⟩, ?_, ?_⟩
  · exact (report_retry_behavior (fun _ => none)).2.2.1 ⟨rfl, rfl, rfl⟩
  · exact (report_retry_behavior
      (fun _ => some [{ role := "assistant", content := "hi" }])).2.1
      [{ role := "assistant", content := "hi" }] rfl (by simp)

/-- C6 witness: the speech handler applied to an empty state and a closing
utterance. -/
theorem agent_completion_iff_witness :
    closing_keywords.length = 8 ∧
    ((on_agent_speech 5 ⟨[], false, 0⟩ "That concludes our interview.").2 =
        true ↔
      ((∃ keyword ∈ closing_keywords,
          strContains (lowerStr "That concludes our interview.") keyword =
            true) ∨
        5 ≤ ((([] : List TranscriptEntry) ++
            [({ role := "assistant",
                content := "That concludes our interview." } :
              TranscriptEntry)]).filter
          fun t => decide (t.role = "assistant")).length / 2)) ∧
    (on_agent_speech 5 ⟨[], false, 0⟩
        "That concludes our interview.").1.interview_complete =
      (false ||
        (on_agent_speech 5 ⟨[], false, 0⟩ "That concludes our interview.").2) ∧
    (on_agent_speech 5 ⟨[], false, 0⟩
        "That concludes our interview.").1.transcript =
      ([] : List TranscriptEntry) ++
        [{ role := "assistant", content := "That concludes our interview." }] :=
  agent_completion_iff 5 ⟨[], false, 0⟩ "That concludes our interview."
